import Mathlib

/-!
Verification of the encoding-conversion program in `crates/main_app/src/main.rs`.

The program reads a configuration, resolves a target encoding label via
`encoding_rs::Encoding::for_label` (defaulting to UTF-8 on an unknown label),
and then, for a file or for every matching file of a directory, runs
`process_file`:

  1. read the file's bytes;
  2. `Encoding::for_bom(&buffer).unwrap_or((WINDOWS_1252, 0))` — BOM sniff,
     with windows-1252 / length 0 as the hard-coded default;
  3. `source_encoding.decode(&buffer[bom_len..])` — decode, a lossy decode
     only prints a warning;
  4. `target_encoding.encode(&decoded_str)` — encode, a lossy encode aborts
     this file with an error (no write);
  5. overwrite the file with the encoded bytes.

The encodings reachable in this program are UTF-8, UTF-16LE, UTF-16BE
(the three `for_bom` can return) and windows-1252 (the hard-coded default);
the model restricts the encoding universe to these four.  The byte-level
behaviour of the `encoding_rs` library calls (`for_bom`, `for_label`,
`decode`, `encode`) is embedded from that library's documented WHATWG
Encoding Standard semantics.  Bytes and Unicode scalar values are `Nat`,
buffers and texts are `List Nat`.
-/

namespace FileConv

/-- The encodings reachable in the program: the three BOM encodings of
`encoding_rs::Encoding::for_bom` plus the hard-coded default
`WINDOWS_1252`.  (Other `encoding_rs` encodings are unreachable from the
program's code paths and are outside this model.) -/
inductive Enc
  | UTF_8
  | UTF_16LE
  | UTF_16BE
  | WINDOWS_1252
  deriving DecidableEq

/-- `Encoding::name()` of `encoding_rs` for the modelled encodings. -/
def encodingName : Enc → String
  | .UTF_8 => "UTF-8"
  | .UTF_16LE => "UTF-16LE"
  | .UTF_16BE => "UTF-16BE"
  | .WINDOWS_1252 => "windows-1252"

/-- `encoding_rs::Encoding::for_bom`: recognize a leading byte-order mark.
Returns the encoding together with the length of its signature:
`EF BB BF` is UTF-8 (3 bytes), `FF FE` is UTF-16LE (2 bytes) and
`FE FF` is UTF-16BE (2 bytes); anything else has no recognized BOM. -/
def for_bom : List Nat → Option (Enc × Nat)
  | 0xEF :: 0xBB :: 0xBF :: _ => some (.UTF_8, 3)
  | 0xFF :: 0xFE :: _ => some (.UTF_16LE, 2)
  | 0xFE :: 0xFF :: _ => some (.UTF_16BE, 2)
  | _ => none

/-- The byte signature of each BOM encoding (empty for windows-1252,
which has no byte-order mark). -/
def bomBytes : Enc → List Nat
  | .UTF_8 => [0xEF, 0xBB, 0xBF]
  | .UTF_16LE => [0xFF, 0xFE]
  | .UTF_16BE => [0xFE, 0xFF]
  | .WINDOWS_1252 => []

/-- The windows-1252 byte-to-character table of the WHATWG Encoding
Standard, as used by `encoding_rs`: bytes below 0x80 and in
0xA0..0xFF map to the same code point, bytes 0x80..0x9F map through
the single-byte index (a few of them, 0x81 0x8D 0x8F 0x90 0x9D, are
the identity as well).  Every byte decodes; windows-1252 decoding
never reports an error. -/
def w1252DecodeByte : Nat → Nat
  | 0x80 => 0x20AC
  | 0x82 => 0x201A
  | 0x83 => 0x0192
  | 0x84 => 0x201E
  | 0x85 => 0x2026
  | 0x86 => 0x2020
  | 0x87 => 0x2021
  | 0x88 => 0x02C6
  | 0x89 => 0x2030
  | 0x8A => 0x0160
  | 0x8B => 0x2039
  | 0x8C => 0x0152
  | 0x8E => 0x017D
  | 0x91 => 0x2018
  | 0x92 => 0x2019
  | 0x93 => 0x201C
  | 0x94 => 0x201D
  | 0x95 => 0x2022
  | 0x96 => 0x2013
  | 0x97 => 0x2014
  | 0x98 => 0x02DC
  | 0x99 => 0x2122
  | 0x9A => 0x0161
  | 0x9B => 0x203A
  | 0x9C => 0x0153
  | 0x9E => 0x017E
  | 0x9F => 0x0178
  | b => b

/-- The windows-1252 encoder index: the unique byte decoding to the
given code point, if any (the WHATWG table is injective, so searching
the 256-entry decode table is the encoder index). -/
def w1252EncodeChar (c : Nat) : Option Nat :=
  (List.range 0x100).find? (fun b => w1252DecodeByte b == c)

/-- Decimal digit expansion, most significant digit first (helper for
the numeric-character-reference substitution of `encoding_rs` encoders).
Structured on explicit fuel so that it stays kernel-computable. -/
def decimalDigitsAux : Nat → Nat → List Nat
  | 0, _ => []
  | fuel + 1, n =>
    if n < 10 then [n]
    else decimalDigitsAux fuel (n / 10) ++ [n % 10]

/-- Decimal digits of `n`, most significant first. -/
def decimalDigits (n : Nat) : List Nat :=
  decimalDigitsAux (n + 1) n

/-- The bytes of the decimal numeric character reference the
`encoding_rs` encoder substitutes for an unmappable character:
an ampersand, a number sign, the decimal digits, a semicolon. -/
def ncrBytes (c : Nat) : List Nat :=
  0x26 :: 0x23 :: (decimalDigits c).map (· + 0x30) ++ [0x3B]

/-- One Unicode scalar value encoded to UTF-8 bytes (1 to 4 bytes by
range, as in the WHATWG UTF-8 encoder used by `encoding_rs`). -/
def utf8EncodeChar (c : Nat) : List Nat :=
  if c < 0x80 then [c]
  else if c < 0x800 then [0xC0 + c / 0x40, 0x80 + c % 0x40]
  else if c < 0x10000 then
    [0xE0 + c / 0x1000, 0x80 + c / 0x40 % 0x40, 0x80 + c % 0x40]
  else
    [0xF0 + c / 0x40000, 0x80 + c / 0x1000 % 0x40, 0x80 + c / 0x40 % 0x40,
      0x80 + c % 0x40]

/-- UTF-8 encoding of a sequence of scalar values. -/
def utf8Encode : List Nat → List Nat
  | [] => []
  | c :: rest => utf8EncodeChar c ++ utf8Encode rest

/-- State of the WHATWG UTF-8 decoder between two bytes: the
accumulated code-point bits, the number of continuation bytes still
needed (`0` is the ground state awaiting a lead byte), and the
admissible range for the next byte (the first continuation byte of a
3- or 4-byte sequence has a restricted range). -/
structure Utf8State where
  acc : Nat
  needed : Nat
  lo : Nat
  hi : Nat
  deriving DecidableEq

/-- The ground state of the UTF-8 decoder. -/
def utf8Ground : Utf8State := ⟨0, 0, 0, 0⟩

/-- Processing one byte in the ground state: an ASCII byte is emitted
as is, a valid lead byte opens a multi-byte sequence with the WHATWG
bounds for its first continuation byte, and an invalid byte
(a stray continuation byte, an overlong lead 0xC0/0xC1, or a byte
above 0xF4) emits U+FFFD with the error flag. -/
def utf8Lead (b : Nat) : List Nat × Bool × Utf8State :=
  if b < 0x80 then ([b], false, utf8Ground)
  else if b < 0xC2 then ([0xFFFD], true, utf8Ground)
  else if b ≤ 0xDF then ([], false, ⟨b - 0xC0, 1, 0x80, 0xBF⟩)
  else if b ≤ 0xEF then
    ([], false,
      ⟨b - 0xE0, 2, if b = 0xE0 then 0xA0 else 0x80,
        if b = 0xED then 0x9F else 0xBF⟩)
  else if b ≤ 0xF4 then
    ([], false,
      ⟨b - 0xF0, 3, if b = 0xF0 then 0x90 else 0x80,
        if b = 0xF4 then 0x8F else 0xBF⟩)
  else ([0xFFFD], true, utf8Ground)

/-- One transition of the WHATWG UTF-8 decoder: in the ground state
dispatch on the lead byte; otherwise accept an admissible
continuation byte (emitting the scalar when the sequence completes),
and on an inadmissible byte emit U+FFFD with the error flag and
reprocess the byte in the ground state (maximal-subpart error
handling). -/
def utf8Step (st : Utf8State) (b : Nat) : List Nat × Bool × Utf8State :=
  if st.needed = 0 then utf8Lead b
  else if st.lo ≤ b ∧ b ≤ st.hi then
    if st.needed = 1 then ([st.acc * 0x40 + (b - 0x80)], false, utf8Ground)
    else ([], false, ⟨st.acc * 0x40 + (b - 0x80), st.needed - 1, 0x80, 0xBF⟩)
  else
    (0xFFFD :: (utf8Lead b).1, true, (utf8Lead b).2.2)

/-- Run the UTF-8 decoder from a state over the remaining bytes; a
sequence still open at end of input emits a single U+FFFD with the
error flag. -/
def utf8Run (st : Utf8State) : List Nat → List Nat × Bool
  | [] => if st.needed = 0 then ([], false) else ([0xFFFD], true)
  | b :: rest =>
    ((utf8Step st b).1 ++ (utf8Run (utf8Step st b).2.2 rest).1,
      (utf8Step st b).2.1 || (utf8Run (utf8Step st b).2.2 rest).2)

/-- The WHATWG UTF-8 decoder with replacement, as used by
`encoding_rs` decoding: well-formed sequences decode to their scalar
value; a malformed sequence emits U+FFFD and sets the error flag.
Returns the scalar values and the `had_errors` flag. -/
def utf8DecodeAux (bytes : List Nat) : List Nat × Bool :=
  utf8Run utf8Ground bytes

/-- Assemble one UTF-16 code unit from two bytes in the given byte order. -/
def utf16CodeUnit (le : Bool) (b0 b1 : Nat) : Nat :=
  if le then b0 + 0x100 * b1 else 0x100 * b0 + b1

/-- Processing one UTF-16 code unit with no pending lead surrogate:
a non-surrogate unit is a scalar value, a lead surrogate becomes
pending, a lone trail surrogate emits U+FFFD with the error flag. -/
def utf16FreshUnit (u : Nat) : List Nat × Bool × Option Nat :=
  if u < 0xD800 ∨ 0xE000 ≤ u then ([u], false, none)
  else if u < 0xDC00 then ([], false, some u)
  else ([0xFFFD], true, none)

/-- Processing one UTF-16 code unit given an optional pending lead
surrogate: a trail surrogate completes the pair into a supplementary
scalar; any other unit after a pending lead emits U+FFFD with the
error flag and is then reprocessed fresh. -/
def utf16ProcUnit (pend : Option Nat) (u : Nat) : List Nat × Bool × Option Nat :=
  match pend with
  | none => utf16FreshUnit u
  | some ls =>
    if 0xDC00 ≤ u ∧ u < 0xE000 then
      ([0x10000 + (ls - 0xD800) * 0x400 + (u - 0xDC00)], false, none)
    else
      (0xFFFD :: (utf16FreshUnit u).1, true, (utf16FreshUnit u).2.2)

/-- Run the WHATWG UTF-16 decoder byte by byte: `leadByte` holds the
first byte of a partially read code unit, `pend` a pending lead
surrogate.  A trailing lone byte or a pending lead surrogate at end
of input emits a single U+FFFD with the error flag. -/
def utf16Run (le : Bool) (leadByte : Option Nat) (pend : Option Nat) :
    List Nat → List Nat × Bool
  | [] =>
    match leadByte, pend with
    | none, none => ([], false)
    | _, _ => ([0xFFFD], true)
  | b :: rest =>
    match leadByte with
    | none => utf16Run le (some b) pend rest
    | some lb =>
      ((utf16ProcUnit pend (utf16CodeUnit le lb b)).1 ++
          (utf16Run le none (utf16ProcUnit pend (utf16CodeUnit le lb b)).2.2 rest).1,
        (utf16ProcUnit pend (utf16CodeUnit le lb b)).2.1 ||
          (utf16Run le none (utf16ProcUnit pend (utf16CodeUnit le lb b)).2.2 rest).2)

/-- The WHATWG UTF-16 decoder with replacement, as used by
`encoding_rs` (little endian when `le` is true). -/
def utf16Decode (le : Bool) (bytes : List Nat) : List Nat × Bool :=
  utf16Run le none none bytes

/-- Decoding with the byte-to-text rules of one encoding (no BOM
handling at this level).  Windows-1252 maps every byte and never
reports an error. -/
def decodeWithoutBom : Enc → List Nat → List Nat × Bool
  | .UTF_8, bytes => utf8DecodeAux bytes
  | .UTF_16LE, bytes => utf16Decode true bytes
  | .UTF_16BE, bytes => utf16Decode false bytes
  | .WINDOWS_1252, bytes => (bytes.map w1252DecodeByte, false)

/-- `encoding_rs::Encoding::decode`: BOM sniffing first — if the input
itself starts with a recognized BOM, the encoding that BOM names is
used instead of `e` and the BOM bytes are not decoded as content —
then decoding with replacement of malformed sequences.  Returns the
text (scalar values) and the `had_errors` flag. -/
def decode (e : Enc) (bytes : List Nat) : List Nat × Bool :=
  match for_bom bytes with
  | some (e2, n) => decodeWithoutBom e2 (bytes.drop n)
  | none => decodeWithoutBom e bytes

/-- The WHATWG output encoding of an encoding: UTF-16LE and UTF-16BE
are mapped to UTF-8; an `encoding_rs` encoder therefore never emits
UTF-16 bytes. -/
def outputEncoding : Enc → Enc
  | .UTF_16LE => .UTF_8
  | .UTF_16BE => .UTF_8
  | e => e

/-- Windows-1252 encoder: each character maps through the encoder
index; an unmappable character is replaced by a decimal numeric
character reference and sets the `had_errors` flag. -/
def w1252Encode : List Nat → List Nat × Bool
  | [] => ([], false)
  | c :: rest =>
    match w1252EncodeChar c with
    | some b => (b :: (w1252Encode rest).1, (w1252Encode rest).2)
    | none => (ncrBytes c ++ (w1252Encode rest).1, true)

/-- Encoding with the text-to-byte rules of the output encoding. -/
def encodeWithOutput : Enc → List Nat → List Nat × Bool
  | .WINDOWS_1252, text => w1252Encode text
  | _, text => (utf8Encode text, false)

/-- `encoding_rs::Encoding::encode`: encode to the output encoding of
`e` (so a UTF-16 target actually produces UTF-8 bytes); unmappable
characters are replaced by numeric character references and set the
`had_errors` flag.  UTF-8 output can represent every scalar value and
never errs. -/
def encode (e : Enc) (text : List Nat) : List Nat × Bool :=
  encodeWithOutput (outputEncoding e) text

/-- A Unicode scalar value: any code point below 0x110000 that is not
a surrogate.  Rust `String`s (the canonical text between decode and
encode) hold exactly these. -/
def ValidScalar (c : Nat) : Prop :=
  c < 0x110000 ∧ ¬(0xD800 ≤ c ∧ c < 0xE000)

instance : DecidablePred ValidScalar := fun c => by
  unfold ValidScalar
  infer_instance

/-- How the source-encoding candidate of a file was chosen: from its
byte-order mark, or — when no BOM is recognized — as the hard-coded
windows-1252 default of `process_file`.  (`Detected` and `Fallback`
name the statistical-detection and fallback-list strategies of the
specification; no code path of the program produces them.) -/
inductive CandidateSource
  | BOM
  | Detected
  | Fallback
  | DefaultEncoding
  deriving DecidableEq

/-- The resolved source-encoding candidate: the encoding, the number
of leading signature bytes to skip before decoding, and how the
candidate was chosen. -/
structure EncodingCandidate where
  encoding : Enc
  bomLength : Nat
  source : CandidateSource
  deriving DecidableEq

/-- The encoding-resolution step of `process_file` (main.rs line 138):
`Encoding::for_bom(&buffer).unwrap_or((WINDOWS_1252, 0))`.  A
recognized BOM is authoritative; otherwise windows-1252 with length 0
is the hard-coded default — no statistical detection and no
fallback-list scan exist in the program. -/
def resolve (buffer : List Nat) : EncodingCandidate :=
  match for_bom buffer with
  | some (e, n) => ⟨e, n, .BOM⟩
  | none => ⟨.WINDOWS_1252, 0, .DefaultEncoding⟩

/-- The byte slice `process_file` passes to `decode`: the buffer after
the resolved signature, `&buffer[bom_len..]`. -/
def decodeInput (buffer : List Nat) : List Nat :=
  (buffer).drop (resolve buffer).bomLength

/-- The only pipeline-level failure of `process_file`: the target
encoding cannot represent the decoded text (the `return Err` of
main.rs line 161, carrying the target's name).  I/O failures are
outside this model. -/
inductive ProcessError
  | TargetUnrepresentable (targetName : String)
  deriving DecidableEq

/-- The terminal record of one file's conversion: `ok written` means
the pipeline reached the write step and overwrote the file with
`written`; `failed e` means the pipeline returned `Err` before any
write. -/
inductive ConversionResult
  | ok (written : List Nat)
  | failed (e : ProcessError)
  deriving DecidableEq

/-- The observable outcome of `process_file` on one file's bytes: the
result, together with the intermediate values the specification
constrains (the chosen candidate, the decoded text and its
`had_errors` flag — the latter only triggers the warning println of
main.rs line 152). -/
structure FileOutcome where
  candidate : EncodingCandidate
  decodedText : List Nat
  decodeHadErrors : Bool
  result : ConversionResult
  deriving DecidableEq

/-- `process_file` (main.rs lines 122-174), minus the I/O: resolve the
source encoding (BOM or the windows-1252 default), decode
`buffer[bom_len..]` (a lossy decode only prints a warning), encode to
the target (a lossy encode fails the file with no write), otherwise
overwrite the file with the encoded bytes. -/
def process_file (buffer : List Nat) (target : Enc) : FileOutcome :=
  { candidate := resolve buffer
    decodedText := (decode (resolve buffer).encoding (decodeInput buffer)).1
    decodeHadErrors := (decode (resolve buffer).encoding (decodeInput buffer)).2
    result :=
      if (encode target (decode (resolve buffer).encoding (decodeInput buffer)).1).2 then
        .failed (.TargetUnrepresentable (encodingName target))
      else
        .ok (encode target (decode (resolve buffer).encoding (decodeInput buffer)).1).1 }

/-- The bytes of the file on disk after `process_file`: the encoded
output when the pipeline reached the write (`fs::File::create` +
`write_all`), the original bytes untouched when it failed before. -/
def finalContents (buffer : List Nat) (target : Enc) : List Nat :=
  match (process_file buffer target).result with
  | .ok written => written
  | .failed _ => buffer

/-- The single-file branch of `main` (main.rs lines 80-87): the
outcome of `process_file` is only matched to print a success or an
error line; either way `main` then runs to completion, so the process
exit status is 0.  Returns the printed report and the exit status. -/
def runSingleFile (buffer : List Nat) (target : Enc) : String × Nat :=
  match (process_file buffer target).result with
  | .ok _ => ("成功转换文件", 0)
  | .failed _ => ("转换文件时出错", 0)

/-- `process_directory` (main.rs lines 99-115), on the byte buffers of
the files that pass the extension filter, in traversal order: each
file is processed by `process_file` and its outcome is only matched
to print a success or an error line — a failure never stops the
loop. -/
def process_directory (files : List (List Nat)) (target : Enc) :
    List ConversionResult :=
  match files with
  | [] => []
  | f :: rest => (process_file f target).result :: process_directory rest target

/-- ASCII lowercasing of one character, as `encoding_rs` label
normalization does. -/
def asciiLower (c : Char) : Char :=
  if 0x41 ≤ c.toNat ∧ c.toNat ≤ 0x5A then Char.ofNat (c.toNat + 0x20) else c

/-- ASCII whitespace, trimmed from both ends of a label by
`encoding_rs::Encoding::for_label`. -/
def isAsciiWs (c : Char) : Bool :=
  c.toNat = 0x09 || c.toNat = 0x0A || c.toNat = 0x0C || c.toNat = 0x0D ||
    c.toNat = 0x20

/-- Label normalization of `encoding_rs::Encoding::for_label`: trim
ASCII whitespace at both ends, lowercase ASCII letters. -/
def normalizeLabel (label : String) : String :=
  ⟨(((label.data.dropWhile isAsciiWs).reverse.dropWhile isAsciiWs).reverse).map
      asciiLower⟩

/-- The WHATWG labels of the four modelled encodings. -/
def labelsOf : Enc → List String
  | .UTF_8 =>
    ["unicode-1-1-utf-8", "unicode11utf8", "unicode20utf8", "utf-8", "utf8",
      "x-unicode20utf8"]
  | .UTF_16LE =>
    ["csunicode", "iso-10646-ucs-2", "ucs-2", "unicode", "unicodefeff",
      "utf-16", "utf-16le"]
  | .UTF_16BE => ["unicodefffe", "utf-16be"]
  | .WINDOWS_1252 =>
    ["ansi_x3.4-1968", "ascii", "cp1252", "cp819", "csisolatin1", "ibm819",
      "iso-8859-1", "iso-ir-100", "iso8859-1", "iso88591", "iso_8859-1",
      "iso_8859-1:1987", "l1", "latin1", "us-ascii", "windows-1252",
      "x-cp1252"]

/-- `encoding_rs::Encoding::for_label`, restricted to the four
encodings of this model: normalize the label and look it up in the
WHATWG label table.  Labels of `encoding_rs` encodings outside the
modelled universe are outside this model; the claims only evaluate it
on modelled or clearly invalid labels. -/
def for_label (label : String) : Option Enc :=
  let n := normalizeLabel label
  if n ∈ labelsOf .UTF_8 then some .UTF_8
  else if n ∈ labelsOf .WINDOWS_1252 then some .WINDOWS_1252
  else if n ∈ labelsOf .UTF_16LE then some .UTF_16LE
  else if n ∈ labelsOf .UTF_16BE then some .UTF_16BE
  else none

/-- Target-encoding resolution of `main` (main.rs lines 59-67):
`Encoding::for_label(..).unwrap_or_else(eprintln; UTF_8)` — an
unknown label prints an error line and substitutes UTF-8; the run is
not aborted.  The boolean records whether the error line was
printed. -/
def resolveTarget (label : String) : Enc × Bool :=
  match for_label label with
  | some e => (e, false)
  | none => (.UTF_8, true)

/-- The directory-mode run of `main` for a configured target label:
resolve the label (with the UTF-8 substitute on an unknown label) and
process every matching file with it. -/
def mainDirectory (label : String) (files : List (List Nat)) :
    List ConversionResult :=
  process_directory files (resolveTarget label).1

/-- Decoding the UTF-8 encoding of one valid scalar, followed by any
remaining bytes, emits exactly that scalar and continues in the
ground state. -/
theorem utf8Run_encodeChar (c : Nat) (hc : ValidScalar c) (l : List Nat) :
    utf8Run utf8Ground (utf8EncodeChar c ++ l) =
      (c :: (utf8Run utf8Ground l).1, (utf8Run utf8Ground l).2) := by
  obtain ⟨hlt, hsur⟩ := hc
  by_cases h1 : c < 0x80
  · have : utf8EncodeChar c = [c] := by simp [utf8EncodeChar, h1]
    rw [this]
    simp only [List.cons_append, List.nil_append, utf8Run, utf8Step, utf8Ground,
      utf8Lead]
    simp [h1]
  · by_cases h2 : c < 0x800
    · have henc : utf8EncodeChar c = [0xC0 + c / 0x40, 0x80 + c % 0x40] := by
        simp [utf8EncodeChar, h1, h2]
      rw [henc]
      have ha : ¬(0xC0 + c / 0x40 < 0x80) := by omega
      have hb : ¬(0xC0 + c / 0x40 < 0xC2) := by omega
      have hd : 0xC0 + c / 0x40 ≤ 0xDF := by omega
      have he : 0x80 ≤ 0x80 + c % 0x40 ∧ 0x80 + c % 0x40 ≤ 0xBF := by omega
      simp only [List.cons_append, List.nil_append, utf8Run, utf8Step,
        utf8Ground, utf8Lead]
      simp [ha, hb, hd, he]
      omega
    · by_cases h3 : c < 0x10000
      · have henc : utf8EncodeChar c =
            [0xE0 + c / 0x1000, 0x80 + c / 0x40 % 0x40, 0x80 + c % 0x40] := by
          simp [utf8EncodeChar, h1, h2, h3]
        rw [henc]
        have ha : ¬(0xE0 + c / 0x1000 < 0x80) := by omega
        have hb : ¬(0xE0 + c / 0x1000 < 0xC2) := by omega
        have hd : ¬(0xE0 + c / 0x1000 ≤ 0xDF) := by omega
        have hf : 0xE0 + c / 0x1000 ≤ 0xEF := by omega
        have he2 : 0x80 ≤ 0x80 + c / 0x40 % 0x40 ∧
            0x80 + c / 0x40 % 0x40 ≤ 0xBF := by omega
        have he3 : 0x80 ≤ 0x80 + c % 0x40 ∧ 0x80 + c % 0x40 ≤ 0xBF := by omega
        simp only [List.cons_append, List.nil_append, utf8Run, utf8Step,
          utf8Ground, utf8Lead]
        by_cases hE0 : c / 0x1000 = 0
        · have hlo : 0xA0 ≤ 0x80 + c / 0x40 % 0x40 := by omega
          simp [ha, hb, hd, hf, hE0, hlo, he2, he3]
          omega
        · by_cases hED : c / 0x1000 = 0xD
          · have hhi : 0x80 + c / 0x40 % 0x40 ≤ 0x9F := by omega
            simp [ha, hb, hd, hf, hE0, hED, hhi, he2, he3]
            omega
          · have hED2 : ¬(0xE0 + c / 0x1000 = 0xED) := by omega
            simp [ha, hb, hd, hf, hE0, hED, hED2, he2, he3]
            omega
      · have henc : utf8EncodeChar c =
            [0xF0 + c / 0x40000, 0x80 + c / 0x1000 % 0x40,
              0x80 + c / 0x40 % 0x40, 0x80 + c % 0x40] := by
          simp [utf8EncodeChar, h1, h2, h3]
        rw [henc]
        have ha : ¬(0xF0 + c / 0x40000 < 0x80) := by omega
        have hb : ¬(0xF0 + c / 0x40000 < 0xC2) := by omega
        have hd : ¬(0xF0 + c / 0x40000 ≤ 0xDF) := by omega
        have hf : ¬(0xF0 + c / 0x40000 ≤ 0xEF) := by omega
        have hg : 0xF0 + c / 0x40000 ≤ 0xF4 := by omega
        have he1 : 0x80 ≤ 0x80 + c / 0x1000 % 0x40 ∧
            0x80 + c / 0x1000 % 0x40 ≤ 0xBF := by omega
        have he2 : 0x80 ≤ 0x80 + c / 0x40 % 0x40 ∧
            0x80 + c / 0x40 % 0x40 ≤ 0xBF := by omega
        have he3 : 0x80 ≤ 0x80 + c % 0x40 ∧ 0x80 + c % 0x40 ≤ 0xBF := by omega
        simp only [List.cons_append, List.nil_append, utf8Run, utf8Step,
          utf8Ground, utf8Lead]
        by_cases hF0 : c / 0x40000 = 0
        · have hlo : 0x90 ≤ 0x80 + c / 0x1000 % 0x40 := by omega
          simp [ha, hb, hd, hf, hg, hF0, hlo, he1, he2, he3]
          omega
        · by_cases hF4 : c / 0x40000 = 4
          · have hhi : 0x80 + c / 0x1000 % 0x40 ≤ 0x8F := by omega
            simp [ha, hb, hd, hf, hg, hF0, hF4, hhi, he1, he2, he3]
            omega
          · have hF42 : ¬(0xF0 + c / 0x40000 = 0xF4) := by omega
            simp [ha, hb, hd, hf, hg, hF0, hF4, hF42, he1, he2, he3]
            omega

/-- The UTF-8 decoder inverts the UTF-8 encoder on any sequence of
valid scalar values, with no error. -/
theorem utf8Run_encode (T : List Nat) (h : ∀ c ∈ T, ValidScalar c) :
    utf8Run utf8Ground (utf8Encode T) = (T, false) := by
  induction T with
  | nil => rfl
  | cons c rest ih =>
    have hc : ValidScalar c := h c (by simp)
    have hrest : ∀ x ∈ rest, ValidScalar x := fun x hx => h x (by simp [hx])
    simp only [utf8Encode]
    rw [utf8Run_encodeChar c hc, ih hrest]

/-- The windows-1252 decode table inverts the encoder index. -/
theorem w1252_encodeChar_decodeByte (c b : Nat) (h : w1252EncodeChar c = some b) :
    w1252DecodeByte b = c := by
  have h2 := List.find?_some h
  simpa using h2

/-- A windows-1252 encode with no error is inverted by the
windows-1252 byte table. -/
theorem w1252Encode_roundtrip (T : List Nat) (h : (w1252Encode T).2 = false) :
    (w1252Encode T).1.map w1252DecodeByte = T := by
  induction T with
  | nil => rfl
  | cons c rest ih =>
    cases hb : w1252EncodeChar c with
    | none => simp [w1252Encode, hb] at h
    | some b =>
      simp only [w1252Encode, hb] at h ⊢
      simp [w1252_encodeChar_decodeByte c b hb, ih h]

/-- The length of a directory run's report equals the number of
matching files: every file is processed. -/
theorem process_directory_length (files : List (List Nat)) (target : Enc) :
    (process_directory files target).length = files.length := by
  induction files with
  | nil => rfl
  | cons f rest ih => simp [process_directory, ih]

/-- Every position of a directory run's report is exactly the outcome
of processing that file alone: outcomes of different files are
independent. -/
theorem process_directory_get (files : List (List Nat)) (target : Enc) (i : Nat) :
    (process_directory files target)[i]? =
      (files[i]?).map fun f => (process_file f target).result := by
  induction files generalizing i with
  | nil => simp [process_directory]
  | cons f rest ih =>
    cases i with
    | zero => simp [process_directory]
    | succ j => simp [process_directory, ih]

/-- C1, counterexample: on the one-byte buffer 0x68 — no recognized
signature, and the program has no statistical detector — with the
fallback list [UTF-16LE, UTF-8, UTF-16BE], decoding with UTF-16LE is
lossy and decoding with UTF-8 is clean, yet `resolve` does not return
UTF-8 with source Fallback: it returns the hard-coded windows-1252
default, because no fallback-list scan exists in the code. -/
theorem fallback_selection_counterexample :
    for_bom [0x68] = none ∧
    (decode .UTF_16LE [0x68]).2 = true ∧
    decode .UTF_8 [0x68] = ([0x68], false) ∧
    resolve [0x68] = ⟨.WINDOWS_1252, 0, .DefaultEncoding⟩ ∧
    ¬resolve [0x68] = ⟨.UTF_8, 0, .Fallback⟩ := by decide

/-- C1 (corrected): for every byte buffer with no recognized
signature, and regardless of any configured fallback list, `resolve`
returns the hard-coded default — windows-1252 with bomLength 0 — and
never a fallback-selected candidate: no detection and no
fallback-list iteration is performed. -/
theorem resolve_ignores_fallback (buffer : List Nat) (fallbackLabels : List Enc)
    (h : for_bom buffer = none) :
    resolve buffer = ⟨.WINDOWS_1252, 0, .DefaultEncoding⟩ := by
  simp [resolve, h]

/-- C1, witness for the corrected claim at a concrete buffer and
fallback list. -/
theorem resolve_ignores_fallback_witness :
    resolve [0x41] = ⟨.WINDOWS_1252, 0, .DefaultEncoding⟩ :=
  resolve_ignores_fallback [0x41] [.UTF_16LE, .UTF_8, .UTF_16BE] (by decide)

/-- C2, counterexample: the buffer UTF-8-BOM ++ 0xFF decodes with
hadErrors = true (0xFF is malformed UTF-8), yet the pipeline still
re-encodes the lossy decoded text and reaches the write: no
fallback-list scan runs and the lossy decode is not rejected. -/
theorem lossy_decode_encoded_counterexample :
    (process_file [0xEF, 0xBB, 0xBF, 0xFF] .UTF_8).decodeHadErrors = true ∧
    (process_file [0xEF, 0xBB, 0xBF, 0xFF] .UTF_8).result =
      .ok [0xEF, 0xBF, 0xBD] := by decide

/-- C2 (corrected): re-encoding is performed on the decoded text
regardless of its hadErrors flag — a lossy decode only triggers the
warning println, no fallback scan exists, and whenever the target
encode is clean the pipeline succeeds and writes the encoding of the
lossy text. -/
theorem lossy_decode_still_encoded (buffer : List Nat) (target : Enc)
    (hdec : (process_file buffer target).decodeHadErrors = true)
    (henc : (encode target (process_file buffer target).decodedText).2 = false) :
    (process_file buffer target).result =
      .ok (encode target (process_file buffer target).decodedText).1 := by
  have henc2 :
      (encode target (decode (resolve buffer).encoding (decodeInput buffer)).1).2 =
        false := henc
  simp [process_file, henc2]

/-- C2, witness for the corrected claim: a UTF-16LE file with a BOM
and a truncated code unit decodes lossily, and the pipeline still
encodes and writes. -/
theorem lossy_decode_still_encoded_witness :
    (process_file [0xFF, 0xFE, 0x61] .UTF_8).decodeHadErrors = true ∧
    (process_file [0xFF, 0xFE, 0x61] .UTF_8).result = .ok [0xEF, 0xBF, 0xBD] := by
  refine ⟨by decide, ?_⟩
  exact lossy_decode_still_encoded [0xFF, 0xFE, 0x61] .UTF_8 (by decide) (by decide)

/-- C3, counterexample: the buffer [0xFF] has no signature, the
program has no detector, and the (hypothetical) fallback label UTF-8
decodes it lossily — the claim's premises — yet `process_file` does
not fail: it decodes with the windows-1252 default and overwrites the
file with the UTF-8 encoding of that decode. -/
theorem exhaustion_failure_counterexample :
    for_bom [0xFF] = none ∧
    (decode .UTF_8 [0xFF]).2 = true ∧
    (process_file [0xFF] .UTF_8).result = .ok [0xC3, 0xBF] ∧
    ¬finalContents [0xFF] .UTF_8 = [0xFF] := by decide

/-- C3 (corrected): resolution never fails — there is no
NoEncodingResolved error in the program.  A buffer with no signature
resolves to the windows-1252 default, whose decode never reports
errors, and whenever the target encode is clean the file is
overwritten with the converted bytes. -/
theorem resolution_never_fails (buffer : List Nat) (target : Enc)
    (h : for_bom buffer = none)
    (henc : (encode target (process_file buffer target).decodedText).2 = false) :
    (process_file buffer target).decodeHadErrors = false ∧
    (process_file buffer target).result =
      .ok (encode target (process_file buffer target).decodedText).1 ∧
    finalContents buffer target =
      (encode target (process_file buffer target).decodedText).1 := by
  have hres : resolve buffer = ⟨.WINDOWS_1252, 0, .DefaultEncoding⟩ := by
    simp [resolve, h]
  have h1 : (process_file buffer target).decodeHadErrors = false := by
    simp [process_file, decodeInput, hres, decode, h, decodeWithoutBom]
  have henc2 :
      (encode target (decode (resolve buffer).encoding (decodeInput buffer)).1).2 =
        false := henc
  have h2 : (process_file buffer target).result =
      .ok (encode target (process_file buffer target).decodedText).1 := by
    simp [process_file, henc2]
  refine ⟨h1, h2, ?_⟩
  simp [finalContents, h2]

/-- C3, witness for the corrected claim at the buffer [0xFF] with
target UTF-8. -/
theorem resolution_never_fails_witness :
    (process_file [0xFF] .UTF_8).decodeHadErrors = false ∧
    (process_file [0xFF] .UTF_8).result = .ok [0xC3, 0xBF] ∧
    finalContents [0xFF] .UTF_8 = [0xC3, 0xBF] := by
  have h := resolution_never_fails [0xFF] .UTF_8 (by decide) (by decide)
  exact ⟨h.1, h.2.1, h.2.2⟩

/-- C4 (confirmed): a buffer beginning with the BOM signature of a
BOM encoding resolves to that encoding, with bomLength the signature
length and source BOM, regardless of any fallback list; and the bytes
passed to decoding are exactly the bytes after the signature, so the
signature is never decoded as content. -/
theorem bom_precedence (e : Enc) (tail : List Nat) (fallbackLabels : List Enc)
    (he : ¬e = .WINDOWS_1252) :
    resolve (bomBytes e ++ tail) = ⟨e, (bomBytes e).length, .BOM⟩ ∧
    decodeInput (bomBytes e ++ tail) = tail := by
  cases e with
  | UTF_8 => exact ⟨rfl, rfl⟩
  | UTF_16LE => exact ⟨rfl, rfl⟩
  | UTF_16BE => exact ⟨rfl, rfl⟩
  | WINDOWS_1252 => exact absurd rfl he

/-- C4, witness: a UTF-16LE BOM followed by content. -/
theorem bom_precedence_witness :
    resolve ([0xFF, 0xFE] ++ [0x68, 0x00]) = ⟨.UTF_16LE, 2, .BOM⟩ ∧
    decodeInput ([0xFF, 0xFE] ++ [0x68, 0x00]) = [0x68, 0x00] :=
  bom_precedence .UTF_16LE [0x68, 0x00] [.WINDOWS_1252] (by decide)

/-- C5 (confirmed): whenever encoding the decoded text into the
target sets hadErrors = true, `process_file` fails with
TargetUnrepresentable (the `return Err` before any write) and the
file keeps its original bytes. -/
theorem target_unrepresentable_no_write (buffer : List Nat) (target : Enc)
    (h : (encode target (process_file buffer target).decodedText).2 = true) :
    (process_file buffer target).result =
      .failed (.TargetUnrepresentable (encodingName target)) ∧
    finalContents buffer target = buffer := by
  have h2 :
      (encode target (decode (resolve buffer).encoding (decodeInput buffer)).1).2 =
        true := h
  have hres : (process_file buffer target).result =
      .failed (.TargetUnrepresentable (encodingName target)) := by
    simp [process_file, h2]
  exact ⟨hres, by simp [finalContents, hres]⟩

/-- C5, witness: a UTF-8 file containing U+03B1, unrepresentable in a
windows-1252 target. -/
theorem target_unrepresentable_no_write_witness :
    (encode .WINDOWS_1252
        (process_file [0xEF, 0xBB, 0xBF, 0xCE, 0xB1] .WINDOWS_1252).decodedText).2 =
      true ∧
    (process_file [0xEF, 0xBB, 0xBF, 0xCE, 0xB1] .WINDOWS_1252).result =
      .failed (.TargetUnrepresentable "windows-1252") ∧
    finalContents [0xEF, 0xBB, 0xBF, 0xCE, 0xB1] .WINDOWS_1252 =
      [0xEF, 0xBB, 0xBF, 0xCE, 0xB1] := by
  have h :=
    target_unrepresentable_no_write [0xEF, 0xBB, 0xBF, 0xCE, 0xB1] .WINDOWS_1252
      (by decide)
  exact ⟨by decide, h.1, h.2⟩

/-- C6, counterexample: a concrete single-file run whose conversion
fails (TargetUnrepresentable), yet the process exit status is 0 — the
failure is only printed, not fatal. -/
theorem single_file_failure_exit_counterexample :
    (process_file [0xEF, 0xBB, 0xBF, 0xE4, 0xB8, 0xAD] .WINDOWS_1252).result =
      .failed (.TargetUnrepresentable "windows-1252") ∧
    (runSingleFile [0xEF, 0xBB, 0xBF, 0xE4, 0xB8, 0xAD] .WINDOWS_1252).2 = 0 := by
  decide

/-- C6 (corrected): in single-file mode a Failed conversion result is
reported with an error line but is not fatal — `main` runs to
completion and the process exits with status 0, for every failing
file. -/
theorem single_file_failure_only_logged (buffer : List Nat) (target : Enc)
    (e : ProcessError)
    (h : (process_file buffer target).result = .failed e) :
    runSingleFile buffer target = ("转换文件时出错", 0) := by
  unfold runSingleFile
  rw [h]

/-- C6, witness for the corrected claim. -/
theorem single_file_failure_only_logged_witness :
    runSingleFile [0xEF, 0xBB, 0xBF, 0xE4, 0xB8, 0xAD] .WINDOWS_1252 =
      ("转换文件时出错", 0) :=
  single_file_failure_only_logged [0xEF, 0xBB, 0xBF, 0xE4, 0xB8, 0xAD]
    .WINDOWS_1252 (.TargetUnrepresentable "windows-1252") (by decide)

/-- C7 (confirmed): in directory mode a per-file failure never aborts
the run — the report has one entry per matching file, and every entry
is exactly the outcome of processing that file alone, also when some
other file of the sequence fails. -/
theorem directory_mode_isolation (files : List (List Nat)) (target : Enc)
    (i j : Nat) (e : ProcessError)
    (hfail : (process_directory files target)[j]? = some (.failed e)) :
    (process_directory files target).length = files.length ∧
    (process_directory files target)[i]? =
      (files[i]?).map fun f => (process_file f target).result :=
  ⟨process_directory_length files target, process_directory_get files target i⟩

/-- C7, witness: three matching files where the second fails; the
first and third are still converted, one failure and two successes. -/
theorem directory_mode_isolation_witness :
    (process_directory [[0x41], [0xEF, 0xBB, 0xBF, 0xCE, 0xB2], [0x42]]
        .WINDOWS_1252).length = 3 ∧
    (process_directory [[0x41], [0xEF, 0xBB, 0xBF, 0xCE, 0xB2], [0x42]]
        .WINDOWS_1252)[2]? = some (.ok [0x42]) := by
  have h :=
    directory_mode_isolation [[0x41], [0xEF, 0xBB, 0xBF, 0xCE, 0xB2], [0x42]]
      .WINDOWS_1252 2 1 (.TargetUnrepresentable "windows-1252") (by decide)
  exact ⟨h.1, h.2⟩

/-- C8, counterexample: the round trip fails in two ways.  Encoding
with a UTF-16 encoding actually emits UTF-8 bytes (the WHATWG output
encoding), so decoding them back with UTF-16LE is lossy garbage; and
a UTF-8 text beginning with U+FEFF encodes to bytes beginning with
the UTF-8 BOM, which the decoder re-sniffs and strips, losing the
character. -/
theorem clean_round_trip_counterexample :
    ((encode .UTF_16LE [0x68]).2 = false ∧
      decode .UTF_16LE (encode .UTF_16LE [0x68]).1 = ([0xFFFD], true)) ∧
    ((encode .UTF_8 [0xFEFF]).2 = false ∧
      decode .UTF_8 (encode .UTF_8 [0xFEFF]).1 = ([], false)) := by decide

/-- C8 (corrected): the clean round trip holds for the encodings
whose encoder is not remapped by the WHATWG output-encoding rule —
UTF-8 and windows-1252 — for every representable text (valid scalars,
encode reports no error) whose encoded bytes do not begin with a
recognized BOM (which the decoder would re-sniff and strip). -/
theorem clean_round_trip (E : Enc) (T : List Nat)
    (hE : E = .UTF_8 ∨ E = .WINDOWS_1252)
    (hvalid : ∀ c ∈ T, ValidScalar c)
    (hclean : (encode E T).2 = false)
    (hnobom : for_bom (encode E T).1 = none) :
    decode E (encode E T).1 = (T, false) := by
  rcases hE with rfl | rfl
  · show decode .UTF_8 (utf8Encode T) = (T, false)
    have hb : for_bom (utf8Encode T) = none := hnobom
    simp only [decode, hb]
    exact utf8Run_encode T hvalid
  · show decode .WINDOWS_1252 (w1252Encode T).1 = (T, false)
    have hcl : (w1252Encode T).2 = false := hclean
    have hb : for_bom (w1252Encode T).1 = none := hnobom
    simp only [decode, hb, decodeWithoutBom]
    rw [w1252Encode_roundtrip T hcl]

/-- C8, witness for the corrected claim: a short UTF-8 round trip. -/
theorem clean_round_trip_witness :
    decode .UTF_8 (encode .UTF_8 [0x68, 0xE9, 0x4E2D]).1 =
      ([0x68, 0xE9, 0x4E2D], false) :=
  clean_round_trip .UTF_8 [0x68, 0xE9, 0x4E2D] (Or.inl rfl) (by decide)
    (by decide) (by decide)

/-- C9 (confirmed): a target_encoding label that maps to no known
encoding does not abort the run — the program reports it (the boolean
of resolveTarget) and substitutes UTF-8, then proceeds to convert the
files with that substitute. -/
theorem invalid_target_label_defaults (label : String) (files : List (List Nat))
    (h : for_label label = none) :
    resolveTarget label = (.UTF_8, true) ∧
    mainDirectory label files = process_directory files .UTF_8 := by
  have h1 : resolveTarget label = (.UTF_8, true) := by simp [resolveTarget, h]
  exact ⟨h1, by simp [mainDirectory, h1]⟩

/-- C9, witness at the invalid label utf-99. -/
theorem invalid_target_label_defaults_witness :
    resolveTarget "utf-99" = (.UTF_8, true) ∧
    mainDirectory "utf-99" [[0x41]] = process_directory [[0x41]] .UTF_8 :=
  invalid_target_label_defaults "utf-99" [[0x41]] (by decide)

/-- C10 (confirmed): a buffer with no recognized BOM unconditionally
resolves to windows-1252 with bomLength 0 (no detection, no fallback
iteration — the hard-coded default); and a lossy decode never fails
the pipeline — whenever the target encode is clean, the conversion
proceeds and the write happens. -/
theorem default_windows1252_and_decode_never_fatal (buffer : List Nat)
    (target : Enc) :
    (for_bom buffer = none →
      resolve buffer = ⟨.WINDOWS_1252, 0, .DefaultEncoding⟩) ∧
    ((encode target (process_file buffer target).decodedText).2 = false →
      (process_file buffer target).result =
        .ok (encode target (process_file buffer target).decodedText).1) := by
  constructor
  · intro h
    simp [resolve, h]
  · intro henc
    have henc2 :
        (encode target
            (decode (resolve buffer).encoding (decodeInput buffer)).1).2 =
          false := henc
    simp [process_file, henc2]

/-- C10, witness: a plain ASCII byte with no BOM. -/
theorem default_windows1252_witness :
    resolve [0x68] = ⟨.WINDOWS_1252, 0, .DefaultEncoding⟩ ∧
    (process_file [0x68] .UTF_8).result = .ok [0x68] := by
  have h := default_windows1252_and_decode_never_fatal [0x68] .UTF_8
  exact ⟨h.1 (by decide), h.2 (by decide)⟩

end FileConv
